/-
Verification of the SpotifyWebApi client (src/index.js).

The repository is a single JavaScript class: each public method builds an
axios options object (url, method, params, data) and delegates to
`performRequest`, which issues one HTTP request against the fixed base URL
with a bearer-token Authorization header, returns the axios response on
success, and on failure evaluates `throw e.response.data.error`.

The shallow embedding below models JavaScript values (`JVal`), JS
truthiness, string conversion (including `Array.prototype.join`), default
parameters (an omitted JS argument is `undefined`, and a declared default
replaces exactly `undefined`), object property assignment, and property
access (reading a property of `undefined`/`null` raises a TypeError).
Each endpoint method becomes a Lean function from the client object, the
JS arguments and the transport outcome to the post-state, the issued
request and the call result.
-/
import Mathlib

namespace SpotifyClient

/-- JavaScript values, as far as this library manipulates them: primitives,
arrays and plain objects (an object is its fields in insertion order;
JS object keys are unique). -/
inductive JVal where
  | null : JVal
  | undefined : JVal
  | bool : Bool → JVal
  | num : Int → JVal
  | str : String → JVal
  | arr : List JVal → JVal
  | obj : List (String × JVal) → JVal

/-- JS truthiness: `false`, `0`, `""`, `null`, `undefined` are falsy;
every array and object is truthy. -/
def truthy : JVal → Bool
  | .null => false
  | .undefined => false
  | .bool b => b
  | .num n => n != 0
  | .str s => s != ""
  | .arr _ => true
  | .obj _ => true

mutual

/-- JS `String(v)` conversion. An array converts to its elements joined
with commas (`Array.prototype.toString`). -/
def toJsString : JVal → String
  | .null => "null"
  | .undefined => "undefined"
  | .bool b => if b then "true" else "false"
  | .num n => toString n
  | .str s => s
  | .arr l => arrJoin l
  | .obj _ => "[object Object]"

/-- JS `Array.prototype.join(",")`: elements converted with `String(e)`,
except that `null` and `undefined` elements convert to the empty string. -/
def arrJoin : List JVal → String
  | [] => ""
  | [v] => joinOne v
  | v :: rest => joinOne v ++ "," ++ arrJoin rest

/-- Conversion of a single element inside `Array.prototype.join`. -/
def joinOne : JVal → String
  | .null => ""
  | .undefined => ""
  | .bool b => if b then "true" else "false"
  | .num n => toString n
  | .str s => s
  | .arr l => arrJoin l
  | .obj _ => "[object Object]"

end

/-- The source's serialization pattern `[x].filter(Boolean).join(",")`:
wrap the value in a singleton array, drop it if falsy, join. -/
def wrapFilterJoin (v : JVal) : String :=
  arrJoin (([v]).filter truthy)

/-- JS default parameter: a declared default `p = d` replaces the argument
exactly when the caller passed `undefined` (in particular when the
argument was omitted). -/
def jsDefault (v d : JVal) : JVal :=
  match v with
  | .undefined => d
  | x => x

/-- JS `a || b`: `a` if truthy, else `b`. -/
def jsOr (a b : JVal) : JVal :=
  if truthy a then a else b

/-- JS property assignment `o[k] = v` on an object's field list: overwrite
the (unique) existing binding in place, or append a new one. -/
def setField : List (String × JVal) → String → JVal → List (String × JVal)
  | [], k, v => [(k, v)]
  | (k₀, v₀) :: rest, k, v =>
      if k₀ = k then (k, v) :: rest else (k₀, v₀) :: setField rest k v

/-- `Object.entries(v)`: the fields of an object in insertion order
(the library only ever enumerates plain objects). -/
def jsEntries : JVal → List (String × JVal)
  | .obj fs => fs
  | _ => []

/-- The `for (const [key, value] of Object.entries(src))` loops of
`getRecommendations`: assign `params[pre + key] = value` for each entry. -/
def assignList (ps : List (String × JVal)) (pre : String)
    (entries : List (String × JVal)) : List (String × JVal) :=
  entries.foldl (fun acc p => setField acc (pre ++ p.1) p.2) ps

/-- A JS runtime error raised during evaluation (as opposed to a value
thrown by a `throw` statement). -/
inductive JsError where
  | typeError : JsError

/-- JS property read `v[k]`: reading from `null`/`undefined` raises a
TypeError; a missing property on an object is `undefined`; a generic
property of another primitive is `undefined`. -/
def getProp : JVal → String → Except JsError JVal
  | .obj fs, k =>
      .ok (match fs.lookup k with
           | some v => v
           | none => .undefined)
  | .null, _ => .error .typeError
  | .undefined, _ => .error .typeError
  | _, _ => .ok .undefined

/-- Outcome of the `await axios(...)` call: either a response value
(the axios response object, whose `data` field is the parsed JSON body),
or a rejection with an error value `e`. -/
inductive AxiosOutcome where
  | success : JVal → AxiosOutcome
  | failure : JVal → AxiosOutcome

/-- How a call to `performRequest` terminates: normal return of the
response, `throw` of the extracted error value, or a runtime TypeError
raised while evaluating the extraction expression. -/
inductive CallResult where
  | ok : JVal → CallResult
  | thrown : JVal → CallResult
  | raised : JsError → CallResult

/-- The client object: the constructor stores `access_token || null`. -/
structure SpotifyWebApi where
  access_token : JVal

/-- The constructor `new SpotifyWebApi(access_token)`: stores
`access_token || null` (a missing token additionally logs a warning,
which has no effect on the stored state). -/
def SpotifyWebApi.new (access_token : JVal) : SpotifyWebApi :=
  { access_token := jsOr access_token .null }

/-- The options object each endpoint method passes to `performRequest`;
a key the method does not mention is `undefined`. -/
structure Options where
  url : String
  method : JVal
  params : JVal
  data : JVal

/-- The HTTP request `performRequest` hands to axios: fixed base URL,
Authorization header `"Bearer " + this.access_token`, the endpoint path,
`options.method || "GET"`, `options.params || null`,
`options.data || null`. -/
structure Request where
  baseURL : String
  authHeader : String
  url : String
  method : JVal
  params : JVal
  data : JVal

/-- The request issued by `performRequest` for the given options. -/
def requestOf (c : SpotifyWebApi) (o : Options) : Request :=
  { baseURL := "https://api.spotify.com/v1"
    authHeader := "Bearer " ++ toJsString c.access_token
    url := o.url
    method := jsOr o.method (.str "GET")
    params := jsOr o.params .null
    data := jsOr o.data .null }

/-- The `catch (e) { throw e.response.data.error }` clause: evaluate the
property chain; if any step reads from `undefined`/`null` the TypeError
is raised, otherwise the reached value is thrown. -/
def runCatch (e : JVal) : CallResult :=
  match getProp e "response" with
  | .error te => .raised te
  | .ok r =>
      match getProp r "data" with
      | .error te => .raised te
      | .ok d =>
          match getProp d "error" with
          | .error te => .raised te
          | .ok errv => .thrown errv

/-- `performRequest(options)`: issue one request built from the options
and the stored token; on transport success return the response, on
transport failure run the catch clause. The client state is returned
unchanged (the method never writes `this`). -/
def performRequest (c : SpotifyWebApi) (o : Options) (t : AxiosOutcome) :
    SpotifyWebApi × Request × CallResult :=
  (c, requestOf c o,
    match t with
    | .success resp => .ok resp
    | .failure e => runCatch e)

/-- Hex digit used by percent-encoding (uppercase, as `encodeURIComponent`). -/
def hexDigitChar (n : Nat) : Char :=
  if n < 10 then Char.ofNat (48 + n) else Char.ofNat (55 + n)

/-- Characters `querystring.escape` leaves unescaped: alphanumerics and
`- _ . ! ~ * ' ( )` (the `encodeURIComponent` unreserved set). -/
def qsUnescapedChar (c : Char) : Bool :=
  c.isAlphanum ||
    c ∈ ['-', '_', '.', '!', '~', '*', Char.ofNat 39, '(', ')']

/-- The UTF-8 bytes of a character, from its code point. -/
def utf8Bytes (c : Char) : List Nat :=
  let n := c.toNat
  if n < 128 then [n]
  else if n < 2048 then [192 + n / 64, 128 + n % 64]
  else if n < 65536 then
    [224 + n / 4096, 128 + (n / 64) % 64, 128 + n % 64]
  else
    [240 + n / 262144, 128 + (n / 4096) % 64, 128 + (n / 64) % 64,
     128 + n % 64]

/-- Percent-encode one character as the `%XX` codes of its UTF-8 bytes. -/
def percentEncodeChar (c : Char) : String :=
  String.join ((utf8Bytes c).map (fun b =>
    String.mk [Char.ofNat 37, hexDigitChar (b / 16), hexDigitChar (b % 16)]))

/-- Node's `querystring.escape`: percent-encode every character outside
the unreserved set. -/
def qsEscape (s : String) : String :=
  String.join (s.data.map (fun c =>
    if qsUnescapedChar c then String.mk [c] else percentEncodeChar c))

/-- `qs.escape` applied to an arbitrary JS value: the value is first
converted with `String(v)`. -/
def jsQsEscape (v : JVal) : String :=
  qsEscape (toJsString v)

/-
The endpoint methods, in source order. Each method is a thin wrapper:
it shapes its parameters and delegates to `performRequest`. An options
key the source does not mention is `undefined`.
-/

/-- `getCategories(country, locale, limit = 20, offset = 0)`:
GET `/browse/categories`. -/
def getCategories (c : SpotifyWebApi) (country locale limit offset : JVal)
    (t : AxiosOutcome) : SpotifyWebApi × Request × CallResult :=
  performRequest c
    { url := "/browse/categories"
      method := .undefined
      params := .obj [("country", country), ("locale", locale),
                      ("limit", jsDefault limit (.num 20)),
                      ("offset", jsDefault offset (.num 0))]
      data := .undefined } t

/-- `getCategory(category_id, country, locale)`:
GET `/browse/categories/${category_id}`. -/
def getCategory (c : SpotifyWebApi) (category_id country locale : JVal)
    (t : AxiosOutcome) : SpotifyWebApi × Request × CallResult :=
  performRequest c
    { url := "/browse/categories/" ++ toJsString category_id
      method := .undefined
      params := .obj [("country", country), ("locale", locale)]
      data := .undefined } t

/-- `getCategoryPlaylist(category_id, country, limit = 20, offset = 0)`:
GET `/browse/categories/${category_id}/playlists`. -/
def getCategoryPlaylist (c : SpotifyWebApi)
    (category_id country limit offset : JVal) (t : AxiosOutcome) :
    SpotifyWebApi × Request × CallResult :=
  performRequest c
    { url := "/browse/categories/" ++ toJsString category_id ++ "/playlists"
      method := .undefined
      params := .obj [("country", country),
                      ("limit", jsDefault limit (.num 20)),
                      ("offset", jsDefault offset (.num 0))]
      data := .undefined } t

/-- `getRecommendations(seed_artists = [], seed_genres = [],
seed_tracks = [], limit = 20, market, min_ = {}, max_ = {}, target_ = {})`:
GET `/recommendations`; the three seed parameters go through
`[x].filter(Boolean).join(",")`, and the three bound objects are
flattened into `min_<key>`, `max_<key>`, `target_<key>` entries by
property assignment in that order. -/
def getRecommendations (c : SpotifyWebApi)
    (seed_artists seed_genres seed_tracks limit market min_ max_ target_ :
      JVal) (t : AxiosOutcome) : SpotifyWebApi × Request × CallResult :=
  performRequest c
    { url := "/recommendations"
      method := .undefined
      params := .obj (assignList (assignList (assignList
        [("seed_artists",
            .str (wrapFilterJoin (jsDefault seed_artists (.arr [])))),
         ("seed_genres",
            .str (wrapFilterJoin (jsDefault seed_genres (.arr [])))),
         ("seed_tracks",
            .str (wrapFilterJoin (jsDefault seed_tracks (.arr [])))),
         ("limit", jsDefault limit (.num 20)),
         ("market", market)]
        "min_" (jsEntries (jsDefault min_ (.obj []))))
        "max_" (jsEntries (jsDefault max_ (.obj []))))
        "target_" (jsEntries (jsDefault target_ (.obj []))))
      data := .undefined } t

/-- `getRecommendationGenres()`:
GET `/recommendations/available-genre-seeds`. -/
def getRecommendationGenres (c : SpotifyWebApi) (t : AxiosOutcome) :
    SpotifyWebApi × Request × CallResult :=
  performRequest c
    { url := "/recommendations/available-genre-seeds"
      method := .undefined
      params := .undefined
      data := .undefined } t

/-- `getNewReleases(country, limit = 20, offset = 0)`:
GET `/browse/new-releases`. -/
def getNewReleases (c : SpotifyWebApi) (country limit offset : JVal)
    (t : AxiosOutcome) : SpotifyWebApi × Request × CallResult :=
  performRequest c
    { url := "/browse/new-releases"
      method := .undefined
      params := .obj [("country", country),
                      ("limit", jsDefault limit (.num 20)),
                      ("offset", jsDefault offset (.num 0))]
      data := .undefined } t

/-- `getFeaturedPlaylists(country, locale, timestamp, limit = 20,
offset = 0)`: GET `/browse/featured-playlists`. -/
def getFeaturedPlaylists (c : SpotifyWebApi)
    (country locale timestamp limit offset : JVal) (t : AxiosOutcome) :
    SpotifyWebApi × Request × CallResult :=
  performRequest c
    { url := "/browse/featured-playlists"
      method := .undefined
      params := .obj [("country", country), ("locale", locale),
                      ("timestamp", timestamp),
                      ("limit", jsDefault limit (.num 20)),
                      ("offset", jsDefault offset (.num 0))]
      data := .undefined } t

/-- `getArtists(ids = [])`: GET `/artists` with
`ids: [ids].filter(Boolean).join(",")`. -/
def getArtists (c : SpotifyWebApi) (ids : JVal) (t : AxiosOutcome) :
    SpotifyWebApi × Request × CallResult :=
  performRequest c
    { url := "/artists"
      method := .undefined
      params := .obj [("ids",
                       .str (wrapFilterJoin (jsDefault ids (.arr []))))]
      data := .undefined } t

/-- `getArtist(id)`: GET `/artists/${id}`, no params, no data. -/
def getArtist (c : SpotifyWebApi) (id : JVal) (t : AxiosOutcome) :
    SpotifyWebApi × Request × CallResult :=
  performRequest c
    { url := "/artists/" ++ toJsString id
      method := .undefined
      params := .undefined
      data := .undefined } t

/-- `getArtistsAlbums(id, include_groups = ["single", "appears_on"],
market, limit = 20, offset = 0)`: GET `/artists/${id}/albums`. -/
def getArtistsAlbums (c : SpotifyWebApi)
    (id include_groups market limit offset : JVal) (t : AxiosOutcome) :
    SpotifyWebApi × Request × CallResult :=
  performRequest c
    { url := "/artists/" ++ toJsString id ++ "/albums"
      method := .undefined
      params := .obj [("include_groups",
                       .str (wrapFilterJoin (jsDefault include_groups
                         (.arr [.str "single", .str "appears_on"])))),
                      ("market", market),
                      ("limit", jsDefault limit (.num 20)),
                      ("offset", jsDefault offset (.num 0))]
      data := .undefined } t

/-- `getArtistsTopTracks(id, market)`: GET `/artists/${id}/top-tracks`. -/
def getArtistsTopTracks (c : SpotifyWebApi) (id market : JVal)
    (t : AxiosOutcome) : SpotifyWebApi × Request × CallResult :=
  performRequest c
    { url := "/artists/" ++ toJsString id ++ "/top-tracks"
      method := .undefined
      params := .obj [("market", market)]
      data := .undefined } t

/-- `getRelatedArtists(id)`: GET `/artists/${id}/related-artists`. -/
def getRelatedArtists (c : SpotifyWebApi) (id : JVal) (t : AxiosOutcome) :
    SpotifyWebApi × Request × CallResult :=
  performRequest c
    { url := "/artists/" ++ toJsString id ++ "/related-artists"
      method := .undefined
      params := .undefined
      data := .undefined } t

/-- `getCurrentPlaying(market)`: GET `/me/player/currently-playing`. -/
def getCurrentPlaying (c : SpotifyWebApi) (market : JVal)
    (t : AxiosOutcome) : SpotifyWebApi × Request × CallResult :=
  performRequest c
    { url := "/me/player/currently-playing"
      method := .undefined
      params := .obj [("market", market)]
      data := .undefined } t

/-- `setVolume(volume_percent = 50, device_id)`:
PUT `/me/player/volume` with `{volume_percent, device_id}`. -/
def setVolume (c : SpotifyWebApi) (volume_percent device_id : JVal)
    (t : AxiosOutcome) : SpotifyWebApi × Request × CallResult :=
  performRequest c
    { url := "/me/player/volume"
      method := .str "PUT"
      params := .obj [("volume_percent",
                       jsDefault volume_percent (.num 50)),
                      ("device_id", device_id)]
      data := .undefined } t

/-- `getPlaybackInfo(market)`: GET `/me/player`. -/
def getPlaybackInfo (c : SpotifyWebApi) (market : JVal) (t : AxiosOutcome) :
    SpotifyWebApi × Request × CallResult :=
  performRequest c
    { url := "/me/player"
      method := .undefined
      params := .obj [("market", market)]
      data := .undefined } t

/-- `skipPrevious(device_id)`: POST `/me/player/previous`. -/
def skipPrevious (c : SpotifyWebApi) (device_id : JVal) (t : AxiosOutcome) :
    SpotifyWebApi × Request × CallResult :=
  performRequest c
    { url := "/me/player/previous"
      method := .str "POST"
      params := .obj [("device_id", device_id)]
      data := .undefined } t

/-- `getRecentlyPlayed(limit = 20, after, before)`:
GET `/me/player/recently-played`. -/
def getRecentlyPlayed (c : SpotifyWebApi) (limit after before : JVal)
    (t : AxiosOutcome) : SpotifyWebApi × Request × CallResult :=
  performRequest c
    { url := "/me/player/recently-played"
      method := .undefined
      params := .obj [("limit", jsDefault limit (.num 20)),
                      ("after", after), ("before", before)]
      data := .undefined } t

/-- `skipNext(device_id)`: POST `/me/player/next`. -/
def skipNext (c : SpotifyWebApi) (device_id : JVal) (t : AxiosOutcome) :
    SpotifyWebApi × Request × CallResult :=
  performRequest c
    { url := "/me/player/next"
      method := .str "POST"
      params := .obj [("device_id", device_id)]
      data := .undefined } t

/-- `pausePlayback(device_id)`: PUT `/me/player/pause`. -/
def pausePlayback (c : SpotifyWebApi) (device_id : JVal) (t : AxiosOutcome) :
    SpotifyWebApi × Request × CallResult :=
  performRequest c
    { url := "/me/player/pause"
      method := .str "PUT"
      params := .obj [("device_id", device_id)]
      data := .undefined } t

/-- `setRepeatMode(state = "track", device_id)`: PUT `/me/player/repeat`. -/
def setRepeatMode (c : SpotifyWebApi) (state device_id : JVal)
    (t : AxiosOutcome) : SpotifyWebApi × Request × CallResult :=
  performRequest c
    { url := "/me/player/repeat"
      method := .str "PUT"
      params := .obj [("state", jsDefault state (.str "track")),
                      ("device_id", device_id)]
      data := .undefined } t

/-- `startPlayback(device_id, context_uri, uris = [], offset,
position_ms)`: PUT `/me/player/play` with a JSON body. -/
def startPlayback (c : SpotifyWebApi)
    (device_id context_uri uris offset position_ms : JVal)
    (t : AxiosOutcome) : SpotifyWebApi × Request × CallResult :=
  performRequest c
    { url := "/me/player/play"
      method := .str "PUT"
      params := .obj [("device_id", device_id)]
      data := .obj [("context_uri", context_uri),
                    ("uris", jsDefault uris (.arr [])),
                    ("offset", offset), ("position_ms", position_ms)] } t

/-- `seekTo(position_ms = 0, device_id)`: PUT `/me/player/seek`. -/
def seekTo (c : SpotifyWebApi) (position_ms device_id : JVal)
    (t : AxiosOutcome) : SpotifyWebApi × Request × CallResult :=
  performRequest c
    { url := "/me/player/seek"
      method := .str "PUT"
      params := .obj [("position_ms", jsDefault position_ms (.num 0)),
                      ("device_id", device_id)]
      data := .undefined } t

/-- `transferPlayback(device_ids, play)`: PUT `/me/player` with a JSON
body and no query parameters. -/
def transferPlayback (c : SpotifyWebApi) (device_ids play : JVal)
    (t : AxiosOutcome) : SpotifyWebApi × Request × CallResult :=
  performRequest c
    { url := "/me/player"
      method := .str "PUT"
      params := .undefined
      data := .obj [("device_ids", device_ids), ("play", play)] } t

/-- `toggleShuffle(state, device_id)`: PUT `/me/player/shuffle`. -/
def toggleShuffle (c : SpotifyWebApi) (state device_id : JVal)
    (t : AxiosOutcome) : SpotifyWebApi × Request × CallResult :=
  performRequest c
    { url := "/me/player/shuffle"
      method := .str "PUT"
      params := .obj [("state", state), ("device_id", device_id)]
      data := .undefined } t

/-- `getAvailableDevices()`: GET `/me/player/devices`. -/
def getAvailableDevices (c : SpotifyWebApi) (t : AxiosOutcome) :
    SpotifyWebApi × Request × CallResult :=
  performRequest c
    { url := "/me/player/devices"
      method := .undefined
      params := .undefined
      data := .undefined } t

/-- `getUserProfile(user_id)`: GET `/users/${user_id}`. -/
def getUserProfile (c : SpotifyWebApi) (user_id : JVal) (t : AxiosOutcome) :
    SpotifyWebApi × Request × CallResult :=
  performRequest c
    { url := "/users/" ++ toJsString user_id
      method := .undefined
      params := .undefined
      data := .undefined } t

/-- `getCurrentUser()`: GET `/me`. -/
def getCurrentUser (c : SpotifyWebApi) (t : AxiosOutcome) :
    SpotifyWebApi × Request × CallResult :=
  performRequest c
    { url := "/me"
      method := .undefined
      params := .undefined
      data := .undefined } t

/-- `getFollowingState(type, ids = [])`: GET `/me/following/contains`. -/
def getFollowingState (c : SpotifyWebApi) (type ids : JVal)
    (t : AxiosOutcome) : SpotifyWebApi × Request × CallResult :=
  performRequest c
    { url := "/me/following/contains"
      method := .undefined
      params := .obj [("type", type),
                      ("ids",
                       .str (wrapFilterJoin (jsDefault ids (.arr []))))]
      data := .undefined } t

/-- `checkIfUsersFollowPlaylist(playlist_id, ids = [])`:
GET `/playlists/${playlist_id}/followers/contains`. -/
def checkIfUsersFollowPlaylist (c : SpotifyWebApi)
    (playlist_id ids : JVal) (t : AxiosOutcome) :
    SpotifyWebApi × Request × CallResult :=
  performRequest c
    { url := "/playlists/" ++ toJsString playlist_id ++
             "/followers/contains"
      method := .undefined
      params := .obj [("ids",
                       .str (wrapFilterJoin (jsDefault ids (.arr []))))]
      data := .undefined } t

/-- `followUsersOrArtists(type, ids = [])`: PUT `/me/following` with the
joined ids as a query parameter and the raw ids array as the body. -/
def followUsersOrArtists (c : SpotifyWebApi) (type ids : JVal)
    (t : AxiosOutcome) : SpotifyWebApi × Request × CallResult :=
  performRequest c
    { url := "/me/following"
      method := .str "PUT"
      params := .obj [("type", type),
                      ("ids",
                       .str (wrapFilterJoin (jsDefault ids (.arr []))))]
      data := .obj [("ids", jsDefault ids (.arr []))] } t

/-- `followPlaylist(playlist_id, visible = true)`:
PUT `/playlists/${playlist_id}/followers`. -/
def followPlaylist (c : SpotifyWebApi) (playlist_id visible : JVal)
    (t : AxiosOutcome) : SpotifyWebApi × Request × CallResult :=
  performRequest c
    { url := "/playlists/" ++ toJsString playlist_id ++ "/followers"
      method := .str "PUT"
      params := .undefined
      data := .obj [("visible", jsDefault visible (.bool true))] } t

/-- `getFollowedArtists(type = "artist", limit = 20, after)`:
GET `/me/following`. -/
def getFollowedArtists (c : SpotifyWebApi) (type limit after : JVal)
    (t : AxiosOutcome) : SpotifyWebApi × Request × CallResult :=
  performRequest c
    { url := "/me/following"
      method := .undefined
      params := .obj [("type", jsDefault type (.str "artist")),
                      ("limit", jsDefault limit (.num 20)),
                      ("after", after)]
      data := .undefined } t

/-- `unfollowArtistsOrUsers(type, ids = [])`: DELETE `/me/following`. -/
def unfollowArtistsOrUsers (c : SpotifyWebApi) (type ids : JVal)
    (t : AxiosOutcome) : SpotifyWebApi × Request × CallResult :=
  performRequest c
    { url := "/me/following"
      method := .str "DELETE"
      params := .obj [("type", type),
                      ("ids",
                       .str (wrapFilterJoin (jsDefault ids (.arr []))))]
      data := .obj [("ids", jsDefault ids (.arr []))] } t

/-- `unfollowPlaylist(playlist_id)`:
request to `/playlists/${playlist_id}/followers` with no `method` key,
hence the dispatcher's default verb. -/
def unfollowPlaylist (c : SpotifyWebApi) (playlist_id : JVal)
    (t : AxiosOutcome) : SpotifyWebApi × Request × CallResult :=
  performRequest c
    { url := "/playlists/" ++ toJsString playlist_id ++ "/followers"
      method := .undefined
      params := .undefined
      data := .undefined } t

/-- `searchItem(q, type = ["track", "artist"], market, limit = 20,
offset = 0, include_external)`: GET `/search`, with `q: qs.escape(q)`. -/
def searchItem (c : SpotifyWebApi)
    (q type market limit offset include_external : JVal)
    (t : AxiosOutcome) : SpotifyWebApi × Request × CallResult :=
  performRequest c
    { url := "/search"
      method := .undefined
      params := .obj [("q", .str (jsQsEscape q)),
                      ("type",
                       .str (wrapFilterJoin (jsDefault type
                         (.arr [.str "track", .str "artist"])))),
                      ("market", market),
                      ("limit", jsDefault limit (.num 20)),
                      ("offset", jsDefault offset (.num 0)),
                      ("include_external", include_external)]
      data := .undefined } t

/-- Query-parameter lookup on an issued request: the value under key `k`
when the request carries a params object. -/
def paramsLookup (r : Request) (k : String) : Option JVal :=
  match r.params with
  | .obj fs => fs.lookup k
  | _ => none

/-- Body-field lookup on an issued request. -/
def dataLookup (r : Request) (k : String) : Option JVal :=
  match r.data with
  | .obj fs => fs.lookup k
  | _ => none

/-
Helper lemmas.
-/

theorem strAppendCancelLeft {s a b : String} (h : s ++ a = s ++ b) :
    a = b := by
  apply String.ext
  have hd := congrArg String.data h
  rw [String.data_append, String.data_append] at hd
  exact List.append_cancel_left hd

theorem minPre_ne_maxPre (a b : String) : "min_" ++ a ≠ "max_" ++ b := by
  intro h
  have hd := congrArg String.data h
  rw [String.data_append, String.data_append] at hd
  have h1 : ("min_" : String).data = ['m', 'i', 'n', '_'] := rfl
  have h2 : ("max_" : String).data = ['m', 'a', 'x', '_'] := rfl
  rw [h1, h2] at hd
  injection hd with hm hrest
  injection hrest with hi _
  exact absurd hi (by decide)

theorem targetPre_ne_minPre (a b : String) :
    "target_" ++ a ≠ "min_" ++ b := by
  intro h
  have hd := congrArg String.data h
  rw [String.data_append, String.data_append] at hd
  have h1 : ("target_" : String).data = ['t', 'a', 'r', 'g', 'e', 't', '_'] :=
    rfl
  have h2 : ("min_" : String).data = ['m', 'i', 'n', '_'] := rfl
  rw [h1, h2] at hd
  injection hd with ht _
  exact absurd ht (by decide)

theorem targetPre_ne_maxPre (a b : String) :
    "target_" ++ a ≠ "max_" ++ b := by
  intro h
  have hd := congrArg String.data h
  rw [String.data_append, String.data_append] at hd
  have h1 : ("target_" : String).data = ['t', 'a', 'r', 'g', 'e', 't', '_'] :=
    rfl
  have h2 : ("max_" : String).data = ['m', 'a', 'x', '_'] := rfl
  rw [h1, h2] at hd
  injection hd with ht _
  exact absurd ht (by decide)

theorem lookup_setField_self (fs : List (String × JVal)) (k : String)
    (v : JVal) : (setField fs k v).lookup k = some v := by
  induction fs with
  | nil => simp [setField, List.lookup]
  | cons p rest ih =>
      obtain ⟨k₀, v₀⟩ := p
      by_cases h : k₀ = k
      · simp [setField, h, List.lookup]
      · simp only [setField, if_neg h, List.lookup]
        have : (k == k₀) = false := by
          simp [beq_eq_false_iff_ne]
          exact fun he => h he.symm
        rw [this]
        exact ih

theorem lookup_setField_ne (fs : List (String × JVal)) (k : String)
    (v : JVal) (k' : String) (h : k' ≠ k) :
    (setField fs k v).lookup k' = fs.lookup k' := by
  induction fs with
  | nil =>
      simp only [setField, List.lookup]
      have : (k' == k) = false := by simpa [beq_eq_false_iff_ne] using h
      rw [this]
  | cons p rest ih =>
      obtain ⟨k₀, v₀⟩ := p
      by_cases h₀ : k₀ = k
      · subst h₀
        simp only [setField, if_pos rfl, List.lookup]
        have : (k' == k₀) = false := by simpa [beq_eq_false_iff_ne] using h
        rw [this]
      · simp only [setField, if_neg h₀, List.lookup]
        by_cases h' : k' = k₀
        · subst h'
          simp
        · have : (k' == k₀) = false := by simpa [beq_eq_false_iff_ne] using h'
          rw [this]
          exact ih

theorem lookup_assignList_of_forall_ne (pre : String)
    (entries : List (String × JVal)) (k : String)
    (h : ∀ p ∈ entries, pre ++ p.1 ≠ k) (ps : List (String × JVal)) :
    (assignList ps pre entries).lookup k = ps.lookup k := by
  induction entries generalizing ps with
  | nil => rfl
  | cons p rest ih =>
      have step : assignList ps pre (p :: rest)
          = assignList (setField ps (pre ++ p.1) p.2) pre rest := rfl
      rw [step, ih (fun q hq => h q (List.mem_cons_of_mem _ hq))]
      exact lookup_setField_ne _ _ _ _
        (fun he => h p (List.mem_cons_self _ _) he.symm)

theorem lookup_assignList_mem (pre : String)
    (entries : List (String × JVal)) (k : String) (v : JVal)
    (hnd : (entries.map Prod.fst).Nodup) (hmem : (k, v) ∈ entries)
    (ps : List (String × JVal)) :
    (assignList ps pre entries).lookup (pre ++ k) = some v := by
  induction entries generalizing ps with
  | nil => cases hmem
  | cons p rest ih =>
      have step : assignList ps pre (p :: rest)
          = assignList (setField ps (pre ++ p.1) p.2) pre rest := rfl
      rcases List.mem_cons.mp hmem with heq | hrest
      · subst heq
        rw [step]
        have hknotin : (k, v).1 ∉ rest.map Prod.fst :=
          (List.nodup_cons.mp hnd).1
        rw [lookup_assignList_of_forall_ne pre rest (pre ++ (k, v).1)
          (fun q hq he =>
            hknotin (by
              have : q.1 = (k, v).1 := strAppendCancelLeft he
              exact this ▸ List.mem_map_of_mem Prod.fst hq))]
        exact lookup_setField_self _ _ _
      · rw [step]
        exact ih (List.nodup_cons.mp hnd).2 hrest _

theorem intercalate_go_append (p : String) (l : List String) :
    ∀ acc : String,
      String.intercalate.go (p ++ acc) "," l
        = p ++ String.intercalate.go acc "," l := by
  induction l with
  | nil => intro acc; simp [String.intercalate.go]
  | cons a as ih =>
      intro acc
      simp only [String.intercalate.go]
      rw [String.append_assoc p acc ",", String.append_assoc p (acc ++ ",") a]
      exact ih ((acc ++ ",") ++ a)

theorem arrJoin_map_str (l : List String) :
    arrJoin (l.map JVal.str) = String.intercalate "," l := by
  induction l with
  | nil => rfl
  | cons a as ih =>
      cases as with
      | nil => rfl
      | cons b bs =>
          have hstep : arrJoin ((a :: b :: bs).map JVal.str)
              = a ++ "," ++ arrJoin ((b :: bs).map JVal.str) := rfl
          rw [hstep, ih]
          show (a ++ ",") ++ String.intercalate "," (b :: bs)
              = String.intercalate "," (a :: b :: bs)
          have hrhs : String.intercalate "," (a :: b :: bs)
              = String.intercalate.go ((a ++ ",") ++ b) "," bs := rfl
          have hlhs : String.intercalate "," (b :: bs)
              = String.intercalate.go b "," bs := rfl
          rw [hrhs, hlhs]
          exact (intercalate_go_append (a ++ ",") bs b).symm

/-- Claim C1: for every endpoint call (every options object), when the
transport reports a failure whose error value carries a JSON error
envelope `e.response.data.error`, the call throws exactly that error
object, and on transport success the call returns the response. -/
theorem performRequest_success_and_error_envelope
    (c : SpotifyWebApi) (o : Options) :
    (∀ resp : JVal,
        (performRequest c o (.success resp)).2.2 = .ok resp) ∧
    (∀ e r d errv : JVal,
        getProp e "response" = .ok r →
        getProp r "data" = .ok d →
        getProp d "error" = .ok errv →
        (performRequest c o (.failure e)).2.2 = .thrown errv) := by
  constructor
  · intro resp
    rfl
  · intro e r d errv h1 h2 h3
    simp [performRequest, runCatch, h1, h2, h3]

/-- Witness for C1: the simulated response
`{error:{status:404,message:"not found"}}` makes the call throw that
exact error object, and a success value is returned as is. -/
theorem performRequest_success_and_error_envelope_witness :
    (performRequest ⟨.str "tok"⟩ ⟨"/artists/abc", .undefined, .undefined, .undefined⟩
        (.success (.obj [("name", .str "x")]))).2.2
      = .ok (.obj [("name", .str "x")]) ∧
    (performRequest ⟨.str "tok"⟩ ⟨"/artists/abc", .undefined, .undefined, .undefined⟩
        (.failure (.obj [("response", .obj [("data", .obj [("error",
          .obj [("status", .num 404),
                ("message", .str "not found")])])])]))).2.2
      = .thrown (.obj [("status", .num 404),
                       ("message", .str "not found")]) :=
  ⟨(performRequest_success_and_error_envelope ⟨.str "tok"⟩
      ⟨"/artists/abc", .undefined, .undefined, .undefined⟩).1 _,
   (performRequest_success_and_error_envelope ⟨.str "tok"⟩
      ⟨"/artists/abc", .undefined, .undefined, .undefined⟩).2 _ _ _ _ rfl rfl rfl⟩

/-- Claim C6: every issued request targets the fixed base URL
`https://api.spotify.com/v1`, carries the Authorization header
`Bearer <token>` with the client's stored token, and uses the verb GET
whenever the options specify no method. -/
theorem wire_contract_base_url_auth_default_get
    (c : SpotifyWebApi) (o : Options) (t : AxiosOutcome) (tok : String) :
    (performRequest c o t).2.1.baseURL = "https://api.spotify.com/v1" ∧
    (c.access_token = .str tok →
      (performRequest c o t).2.1.authHeader = "Bearer " ++ tok) ∧
    (o.method = .undefined →
      (performRequest c o t).2.1.method = .str "GET") := by
  refine ⟨rfl, ?_, ?_⟩
  · intro h
    simp [performRequest, requestOf, h, toJsString]
  · intro h
    simp [performRequest, requestOf, h, jsOr, truthy]

/-- Witness for C6, at a concrete client, options and outcome. -/
theorem wire_contract_base_url_auth_default_get_witness :
    (performRequest ⟨.str "tok123"⟩ ⟨"/me", .undefined, .undefined, .undefined⟩
        (.success .null)).2.1.baseURL = "https://api.spotify.com/v1" ∧
    (performRequest ⟨.str "tok123"⟩ ⟨"/me", .undefined, .undefined, .undefined⟩
        (.success .null)).2.1.authHeader = "Bearer tok123" ∧
    (performRequest ⟨.str "tok123"⟩ ⟨"/me", .undefined, .undefined, .undefined⟩
        (.success .null)).2.1.method = .str "GET" :=
  ⟨(wire_contract_base_url_auth_default_get ⟨.str "tok123"⟩
      ⟨"/me", .undefined, .undefined, .undefined⟩ (.success .null) "tok123").1,
   (wire_contract_base_url_auth_default_get ⟨.str "tok123"⟩
      ⟨"/me", .undefined, .undefined, .undefined⟩ (.success .null) "tok123").2.1 rfl,
   (wire_contract_base_url_auth_default_get ⟨.str "tok123"⟩
      ⟨"/me", .undefined, .undefined, .undefined⟩ (.success .null) "tok123").2.2 rfl⟩

/-- Counterexample to C7 as stated: on a transport failure with no
`response` field (a network failure), the call does not propagate the
raw transport failure; evaluating `e.response.data.error` raises a
TypeError instead. -/
theorem network_failure_not_raw_error_cex :
    (performRequest ⟨.str "tok"⟩ ⟨"/me", .undefined, .undefined, .undefined⟩
        (.failure (.obj [("message", .str "Network Error")]))).2.2
      = .raised .typeError ∧
    (performRequest ⟨.str "tok"⟩ ⟨"/me", .undefined, .undefined, .undefined⟩
        (.failure (.obj [("message", .str "Network Error")]))).2.2
      ≠ .thrown (.obj [("message", .str "Network Error")]) := by
  refine ⟨rfl, ?_⟩
  intro h
  exact CallResult.noConfusion h

/-- Claim C7 as amended: when the transport failure's error value has no
`response` field, the call fails by raising the TypeError produced by
reading `.data` of `undefined` in `e.response.data.error` — neither the
raw transport failure nor an extracted API error object. -/
theorem network_failure_raises_type_error
    (c : SpotifyWebApi) (o : Options) (e : JVal)
    (h : getProp e "response" = .ok .undefined) :
    (performRequest c o (.failure e)).2.2 = .raised .typeError := by
  show runCatch e = .raised .typeError
  unfold runCatch
  rw [h]
  rfl

/-- Witness for the amended C7, at a concrete network-failure value. -/
theorem network_failure_raises_type_error_witness :
    getProp (.obj [("message", .str "Network Error")]) "response"
      = .ok .undefined ∧
    (performRequest ⟨.str "tok2"⟩ ⟨"/artists", .undefined, .undefined, .undefined⟩
        (.failure (.obj [("message", .str "Network Error")]))).2.2
      = .raised .typeError :=
  ⟨rfl, network_failure_raises_type_error ⟨.str "tok2"⟩
      ⟨"/artists", .undefined, .undefined, .undefined⟩
      (.obj [("message", .str "Network Error")]) rfl⟩

/-- Claim C10: `unfollowPlaylist` issues its request to
`/playlists/<playlist_id>/followers` with the dispatcher's default verb
GET (the source specifies no method), whereas `unfollowArtistsOrUsers`
issues DELETE. -/
theorem unfollowPlaylist_uses_default_get_verb
    (c : SpotifyWebApi) (t : AxiosOutcome) (playlist_id type ids : JVal) :
    (unfollowPlaylist c playlist_id t).2.1.url
        = "/playlists/" ++ toJsString playlist_id ++ "/followers" ∧
    (unfollowPlaylist c playlist_id t).2.1.method = .str "GET" ∧
    (unfollowArtistsOrUsers c type ids t).2.1.method = .str "DELETE" :=
  ⟨rfl, rfl, rfl⟩

/-- Claim C2: for every endpoint method, at representative inputs, the
issued request's path and verb match the source's template; in
particular `getArtist("abc")` issues GET `/artists/abc` with no query
parameters and no body, and `setVolume(70, "dev1")` issues
PUT `/me/player/volume` with params `volume_percent = 70`,
`device_id = "dev1"` and no body. -/
theorem endpoint_request_templates
    (c : SpotifyWebApi) (t : AxiosOutcome) (a b d e f g h i : JVal) :
    (getArtist c (.str "abc") t).2.1
      = { baseURL := "https://api.spotify.com/v1"
          authHeader := "Bearer " ++ toJsString c.access_token
          url := "/artists/abc"
          method := .str "GET"
          params := .null
          data := .null } ∧
    (setVolume c (.num 70) (.str "dev1") t).2.1
      = { baseURL := "https://api.spotify.com/v1"
          authHeader := "Bearer " ++ toJsString c.access_token
          url := "/me/player/volume"
          method := .str "PUT"
          params := .obj [("volume_percent", .num 70),
                          ("device_id", .str "dev1")]
          data := .null } ∧
    (getCategories c a b d e t).2.1.url = "/browse/categories" ∧
    (getCategories c a b d e t).2.1.method = .str "GET" ∧
    (getCategory c a b d t).2.1.url = "/browse/categories/" ++ toJsString a ∧
    (getCategory c a b d t).2.1.method = .str "GET" ∧
    (getCategoryPlaylist c a b d e t).2.1.url = "/browse/categories/" ++ toJsString a ++ "/playlists" ∧
    (getCategoryPlaylist c a b d e t).2.1.method = .str "GET" ∧
    (getRecommendations c a b d e f g h i t).2.1.url = "/recommendations" ∧
    (getRecommendations c a b d e f g h i t).2.1.method = .str "GET" ∧
    (getRecommendationGenres c t).2.1.url = "/recommendations/available-genre-seeds" ∧
    (getRecommendationGenres c t).2.1.method = .str "GET" ∧
    (getNewReleases c a b d t).2.1.url = "/browse/new-releases" ∧
    (getNewReleases c a b d t).2.1.method = .str "GET" ∧
    (getFeaturedPlaylists c a b d e f t).2.1.url = "/browse/featured-playlists" ∧
    (getFeaturedPlaylists c a b d e f t).2.1.method = .str "GET" ∧
    (getArtists c a t).2.1.url = "/artists" ∧
    (getArtists c a t).2.1.method = .str "GET" ∧
    (getArtist c a t).2.1.url = "/artists/" ++ toJsString a ∧
    (getArtist c a t).2.1.method = .str "GET" ∧
    (getArtistsAlbums c a b d e f t).2.1.url = "/artists/" ++ toJsString a ++ "/albums" ∧
    (getArtistsAlbums c a b d e f t).2.1.method = .str "GET" ∧
    (getArtistsTopTracks c a b t).2.1.url = "/artists/" ++ toJsString a ++ "/top-tracks" ∧
    (getArtistsTopTracks c a b t).2.1.method = .str "GET" ∧
    (getRelatedArtists c a t).2.1.url = "/artists/" ++ toJsString a ++ "/related-artists" ∧
    (getRelatedArtists c a t).2.1.method = .str "GET" ∧
    (getCurrentPlaying c a t).2.1.url = "/me/player/currently-playing" ∧
    (getCurrentPlaying c a t).2.1.method = .str "GET" ∧
    (setVolume c a b t).2.1.url = "/me/player/volume" ∧
    (setVolume c a b t).2.1.method = .str "PUT" ∧
    (getPlaybackInfo c a t).2.1.url = "/me/player" ∧
    (getPlaybackInfo c a t).2.1.method = .str "GET" ∧
    (skipPrevious c a t).2.1.url = "/me/player/previous" ∧
    (skipPrevious c a t).2.1.method = .str "POST" ∧
    (getRecentlyPlayed c a b d t).2.1.url = "/me/player/recently-played" ∧
    (getRecentlyPlayed c a b d t).2.1.method = .str "GET" ∧
    (skipNext c a t).2.1.url = "/me/player/next" ∧
    (skipNext c a t).2.1.method = .str "POST" ∧
    (pausePlayback c a t).2.1.url = "/me/player/pause" ∧
    (pausePlayback c a t).2.1.method = .str "PUT" ∧
    (setRepeatMode c a b t).2.1.url = "/me/player/repeat" ∧
    (setRepeatMode c a b t).2.1.method = .str "PUT" ∧
    (startPlayback c a b d e f t).2.1.url = "/me/player/play" ∧
    (startPlayback c a b d e f t).2.1.method = .str "PUT" ∧
    (seekTo c a b t).2.1.url = "/me/player/seek" ∧
    (seekTo c a b t).2.1.method = .str "PUT" ∧
    (transferPlayback c a b t).2.1.url = "/me/player" ∧
    (transferPlayback c a b t).2.1.method = .str "PUT" ∧
    (toggleShuffle c a b t).2.1.url = "/me/player/shuffle" ∧
    (toggleShuffle c a b t).2.1.method = .str "PUT" ∧
    (getAvailableDevices c t).2.1.url = "/me/player/devices" ∧
    (getAvailableDevices c t).2.1.method = .str "GET" ∧
    (getUserProfile c a t).2.1.url = "/users/" ++ toJsString a ∧
    (getUserProfile c a t).2.1.method = .str "GET" ∧
    (getCurrentUser c t).2.1.url = "/me" ∧
    (getCurrentUser c t).2.1.method = .str "GET" ∧
    (getFollowingState c a b t).2.1.url = "/me/following/contains" ∧
    (getFollowingState c a b t).2.1.method = .str "GET" ∧
    (checkIfUsersFollowPlaylist c a b t).2.1.url = "/playlists/" ++ toJsString a ++ "/followers/contains" ∧
    (checkIfUsersFollowPlaylist c a b t).2.1.method = .str "GET" ∧
    (followUsersOrArtists c a b t).2.1.url = "/me/following" ∧
    (followUsersOrArtists c a b t).2.1.method = .str "PUT" ∧
    (followPlaylist c a b t).2.1.url = "/playlists/" ++ toJsString a ++ "/followers" ∧
    (followPlaylist c a b t).2.1.method = .str "PUT" ∧
    (getFollowedArtists c a b d t).2.1.url = "/me/following" ∧
    (getFollowedArtists c a b d t).2.1.method = .str "GET" ∧
    (unfollowArtistsOrUsers c a b t).2.1.url = "/me/following" ∧
    (unfollowArtistsOrUsers c a b t).2.1.method = .str "DELETE" ∧
    (unfollowPlaylist c a t).2.1.url = "/playlists/" ++ toJsString a ++ "/followers" ∧
    (unfollowPlaylist c a t).2.1.method = .str "GET" ∧
    (searchItem c a b d e f g t).2.1.url = "/search" ∧
    (searchItem c a b d e f g t).2.1.method = .str "GET" :=
  ⟨rfl, rfl, rfl, rfl, rfl, rfl, rfl, rfl, rfl, rfl, rfl, rfl, rfl, rfl, rfl, rfl, rfl, rfl, rfl, rfl, rfl, rfl, rfl, rfl, rfl, rfl, rfl, rfl, rfl, rfl, rfl, rfl, rfl, rfl, rfl, rfl, rfl, rfl, rfl, rfl, rfl, rfl, rfl, rfl, rfl, rfl, rfl, rfl, rfl, rfl, rfl, rfl, rfl, rfl, rfl, rfl, rfl, rfl, rfl, rfl, rfl, rfl, rfl, rfl, rfl, rfl, rfl, rfl, rfl, rfl, rfl, rfl⟩

/-- Claim C9: no call writes the stored access token: the client state
returned by `performRequest` and by every endpoint method equals the
state it was called with; only the constructor writes the token. -/
theorem access_token_unchanged_by_all_methods
    (c : SpotifyWebApi) (o : Options) (t : AxiosOutcome)
    (a b d e f g h i : JVal) :
    (performRequest c o t).1 = c ∧
    (getCategories c a b d e t).1 = c ∧
    (getCategory c a b d t).1 = c ∧
    (getCategoryPlaylist c a b d e t).1 = c ∧
    (getRecommendations c a b d e f g h i t).1 = c ∧
    (getRecommendationGenres c t).1 = c ∧
    (getNewReleases c a b d t).1 = c ∧
    (getFeaturedPlaylists c a b d e f t).1 = c ∧
    (getArtists c a t).1 = c ∧
    (getArtist c a t).1 = c ∧
    (getArtistsAlbums c a b d e f t).1 = c ∧
    (getArtistsTopTracks c a b t).1 = c ∧
    (getRelatedArtists c a t).1 = c ∧
    (getCurrentPlaying c a t).1 = c ∧
    (setVolume c a b t).1 = c ∧
    (getPlaybackInfo c a t).1 = c ∧
    (skipPrevious c a t).1 = c ∧
    (getRecentlyPlayed c a b d t).1 = c ∧
    (skipNext c a t).1 = c ∧
    (pausePlayback c a t).1 = c ∧
    (setRepeatMode c a b t).1 = c ∧
    (startPlayback c a b d e f t).1 = c ∧
    (seekTo c a b t).1 = c ∧
    (transferPlayback c a b t).1 = c ∧
    (toggleShuffle c a b t).1 = c ∧
    (getAvailableDevices c t).1 = c ∧
    (getUserProfile c a t).1 = c ∧
    (getCurrentUser c t).1 = c ∧
    (getFollowingState c a b t).1 = c ∧
    (checkIfUsersFollowPlaylist c a b t).1 = c ∧
    (followUsersOrArtists c a b t).1 = c ∧
    (followPlaylist c a b t).1 = c ∧
    (getFollowedArtists c a b d t).1 = c ∧
    (unfollowArtistsOrUsers c a b t).1 = c ∧
    (unfollowPlaylist c a t).1 = c ∧
    (searchItem c a b d e f g t).1 = c :=
  ⟨rfl, rfl, rfl, rfl, rfl, rfl, rfl, rfl, rfl, rfl, rfl, rfl, rfl, rfl, rfl, rfl, rfl, rfl, rfl, rfl, rfl, rfl, rfl, rfl, rfl, rfl, rfl, rfl, rfl, rfl, rfl, rfl, rfl, rfl, rfl, rfl⟩

/-- Claim C3: an array-valued parameter serializes to its elements
comma-joined in order with no surrounding brackets: `getArtists` on
`["a","b"]` sends `ids = "a,b"`, and on any list of strings it sends
the comma-joined list. -/
theorem array_params_comma_joined
    (c : SpotifyWebApi) (t : AxiosOutcome) (l : List String) :
    paramsLookup (getArtists c (.arr [.str "a", .str "b"]) t).2.1 "ids"
        = some (.str "a,b") ∧
    paramsLookup (getArtists c (.arr (l.map JVal.str)) t).2.1 "ids"
        = some (.str (String.intercalate "," l)) := by
  constructor
  · rfl
  · have hred : paramsLookup (getArtists c (.arr (l.map JVal.str)) t).2.1
        "ids" = some (.str (arrJoin (l.map JVal.str))) := rfl
    rw [hred, arrJoin_map_str]

/-- Claim C5: with the optional parameters omitted (JS `undefined`), the
issued request carries the documented defaults: `limit = 20` and
`offset = 0` in `getCategories`, `getCategoryPlaylist`, `getNewReleases`,
`getFeaturedPlaylists` and `searchItem`, and `limit = 20` in
`getRecommendations` (which has no offset parameter). -/
theorem omitted_params_use_documented_defaults
    (c : SpotifyWebApi) (t : AxiosOutcome) (a b d : JVal) :
    paramsLookup (getCategories c a b .undefined .undefined t).2.1 "limit"
        = some (.num 20) ∧
    paramsLookup (getCategories c a b .undefined .undefined t).2.1 "offset"
        = some (.num 0) ∧
    paramsLookup (getCategoryPlaylist c a b .undefined .undefined t).2.1 "limit"
        = some (.num 20) ∧
    paramsLookup (getCategoryPlaylist c a b .undefined .undefined t).2.1 "offset"
        = some (.num 0) ∧
    paramsLookup (getNewReleases c a .undefined .undefined t).2.1 "limit"
        = some (.num 20) ∧
    paramsLookup (getNewReleases c a .undefined .undefined t).2.1 "offset"
        = some (.num 0) ∧
    paramsLookup (getFeaturedPlaylists c a b d .undefined .undefined t).2.1 "limit"
        = some (.num 20) ∧
    paramsLookup (getFeaturedPlaylists c a b d .undefined .undefined t).2.1 "offset"
        = some (.num 0) ∧
    paramsLookup (getRecommendations c .undefined .undefined .undefined .undefined a
        .undefined .undefined .undefined t).2.1 "limit" = some (.num 20) ∧
    paramsLookup (searchItem c a .undefined b .undefined .undefined d t).2.1 "limit"
        = some (.num 20) ∧
    paramsLookup (searchItem c a .undefined b .undefined .undefined d t).2.1 "offset"
        = some (.num 0) :=
  ⟨rfl, rfl, rfl, rfl, rfl, rfl, rfl, rfl, rfl, rfl, rfl⟩

/-- Claim C8: a falsy scalar (`0`, `""`, `false`) passed directly as an
array-valued parameter serializes to the empty string — the
`[x].filter(Boolean).join(",")` pattern silently drops it — while a
truthy scalar serializes to itself. -/
theorem falsy_scalar_array_param_dropped
    (c : SpotifyWebApi) (t : AxiosOutcome) :
    paramsLookup (getArtists c (.num 0) t).2.1 "ids" = some (.str "") ∧
    paramsLookup (getArtists c (.str "") t).2.1 "ids" = some (.str "") ∧
    paramsLookup (getArtists c (.bool false) t).2.1 "ids"
        = some (.str "") ∧
    paramsLookup (getRecommendations c (.num 0) .undefined .undefined .undefined
        .undefined .undefined .undefined .undefined t).2.1 "seed_artists"
        = some (.str "") ∧
    (∀ s : String, s ≠ "" →
      paramsLookup (getArtists c (.str s) t).2.1 "ids" = some (.str s)) ∧
    (∀ n : Int, n ≠ 0 →
      paramsLookup (getArtists c (.num n) t).2.1 "ids"
        = some (.str (toString n))) := by
  refine ⟨rfl, rfl, rfl, rfl, ?_, ?_⟩
  · intro s hs
    have ht : truthy (.str s) = true := by
      simp [truthy, hs]
    have hred : paramsLookup (getArtists c (.str s) t).2.1 "ids"
        = some (.str (arrJoin ([JVal.str s].filter truthy))) := rfl
    rw [hred]
    simp [List.filter, ht, arrJoin, joinOne]
  · intro n hn
    have ht : truthy (.num n) = true := by
      simp [truthy, hn]
    have hred : paramsLookup (getArtists c (.num n) t).2.1 "ids"
        = some (.str (arrJoin ([JVal.num n].filter truthy))) := rfl
    rw [hred]
    simp [List.filter, ht, arrJoin, joinOne]

/-- Witness for C8: a truthy string and a truthy number serialize to
themselves. -/
theorem falsy_scalar_array_param_dropped_witness :
    paramsLookup (getArtists ⟨.str "tok"⟩ (.str "abc")
        (.success .null)).2.1 "ids" = some (.str "abc") ∧
    paramsLookup (getArtists ⟨.str "tok"⟩ (.num 5)
        (.success .null)).2.1 "ids" = some (.str "5") :=
  ⟨(falsy_scalar_array_param_dropped ⟨.str "tok"⟩
      (.success .null)).2.2.2.2.1 "abc" (by decide),
   (falsy_scalar_array_param_dropped ⟨.str "tok"⟩
      (.success .null)).2.2.2.2.2 5 (by decide)⟩

/-- Lookup of a `min_`-prefixed key after all three assignment blocks of
`getRecommendations`: the later `max_`/`target_` blocks cannot touch it. -/
theorem min_block_lookup (base minB maxB tgtB : List (String × JVal))
    (k : String) (v : JVal) (hnd : (minB.map Prod.fst).Nodup)
    (hmem : (k, v) ∈ minB) :
    ((assignList (assignList (assignList base "min_" minB) "max_" maxB)
        "target_" tgtB).lookup ("min_" ++ k)) = some v := by
  rw [lookup_assignList_of_forall_ne "target_" tgtB ("min_" ++ k)
      (fun q hq => targetPre_ne_minPre q.1 k) _]
  rw [lookup_assignList_of_forall_ne "max_" maxB ("min_" ++ k)
      (fun q hq => (minPre_ne_maxPre k q.1).symm) _]
  exact lookup_assignList_mem "min_" minB k v hnd hmem base

/-- Lookup of a `max_`-prefixed key after all three assignment blocks. -/
theorem max_block_lookup (base minB maxB tgtB : List (String × JVal))
    (k : String) (v : JVal) (hnd : (maxB.map Prod.fst).Nodup)
    (hmem : (k, v) ∈ maxB) :
    ((assignList (assignList (assignList base "min_" minB) "max_" maxB)
        "target_" tgtB).lookup ("max_" ++ k)) = some v := by
  rw [lookup_assignList_of_forall_ne "target_" tgtB ("max_" ++ k)
      (fun q hq => targetPre_ne_maxPre q.1 k) _]
  exact lookup_assignList_mem "max_" maxB k v hnd hmem _

/-- Lookup of a `target_`-prefixed key after all three assignment blocks. -/
theorem target_block_lookup (base minB maxB tgtB : List (String × JVal))
    (k : String) (v : JVal) (hnd : (tgtB.map Prod.fst).Nodup)
    (hmem : (k, v) ∈ tgtB) :
    ((assignList (assignList (assignList base "min_" minB) "max_" maxB)
        "target_" tgtB).lookup ("target_" ++ k)) = some v :=
  lookup_assignList_mem "target_" tgtB k v hnd hmem _

/-- Claim C4: every entry `k = v` of the `min_` argument of
`getRecommendations` yields the query entry `min_k = v`, every entry of
`max_` yields `max_k = v`, and every entry of `target_` yields
`target_k = v` (keys of a JS object are unique, hence the `Nodup`
hypotheses). -/
theorem recommendations_bounds_flattened
    (c : SpotifyWebApi) (t : AxiosOutcome) (sa sg st lim mkt : JVal)
    (minB maxB tgtB : List (String × JVal)) (k : String) (v : JVal) :
    ((minB.map Prod.fst).Nodup → (k, v) ∈ minB →
      paramsLookup (getRecommendations c sa sg st lim mkt
          (.obj minB) (.obj maxB) (.obj tgtB) t).2.1 ("min_" ++ k)
        = some v) ∧
    ((maxB.map Prod.fst).Nodup → (k, v) ∈ maxB →
      paramsLookup (getRecommendations c sa sg st lim mkt
          (.obj minB) (.obj maxB) (.obj tgtB) t).2.1 ("max_" ++ k)
        = some v) ∧
    ((tgtB.map Prod.fst).Nodup → (k, v) ∈ tgtB →
      paramsLookup (getRecommendations c sa sg st lim mkt
          (.obj minB) (.obj maxB) (.obj tgtB) t).2.1 ("target_" ++ k)
        = some v) := by
  refine ⟨?_, ?_, ?_⟩
  · intro hnd hmem
    exact min_block_lookup _ minB maxB tgtB k v hnd hmem
  · intro hnd hmem
    exact max_block_lookup _ minB maxB tgtB k v hnd hmem
  · intro hnd hmem
    exact target_block_lookup _ minB maxB tgtB k v hnd hmem

/-- Witness for C4: `min_ = {popularity: 10}` produces the query entry
`min_popularity = 10`. -/
theorem recommendations_bounds_flattened_witness :
    paramsLookup (getRecommendations ⟨.str "tok"⟩ .undefined .undefined .undefined
        .undefined .undefined (.obj [("popularity", .num 10)]) (.obj [])
        (.obj []) (.success .null)).2.1 "min_popularity"
      = some (.num 10) :=
  (recommendations_bounds_flattened ⟨.str "tok"⟩ (.success .null)
      .undefined .undefined .undefined .undefined .undefined [("popularity", .num 10)] [] []
      "popularity" (.num 10)).1 (by decide)
    (List.mem_singleton.mpr rfl)

end SpotifyClient
